import Mathlib

/-!
Shallow embedding of `app.py`, a Streamlit route-planning page: coordinate
validation, an HTTP fetch with a retry decorator, the OSRM route phase, the
weather/advisory phase with its three decision branches, and the downloadable
text report.  Python floats are modelled as rationals (ℚ); the external HTTP
calls are modelled by their possible outcomes, passed in as parameters.
-/

/- Error and message strings, verbatim from the source. -/

/-- Message of the range ValueError raised inside the try of validate_coords. -/
def rangeMsg : String := "坐标超出有效范围（经度 -180~180，纬度 -90~90）"

/-- Message of the ValueError raised by the bare except of validate_coords. -/
def formatMsg : String := "坐标格式错误，需为：经度,纬度（如 116.39139,39.9075）"

/-- Stands for the text of the Python exception raised when the comma-split
input does not unpack into two float() convertible fields (its exact wording
is interpreter-defined and never observable: the bare except replaces it). -/
def parseFailureMsg : String := "could not unpack two float fields"

/--
Body of the try block of validate_coords.  The input string is represented by
the result of splitting it on commas and applying Python float() to each
field: `some q` when the field parses as a finite number of exact value `q`,
`none` when float() raises.  (Non-finite parses such as inf/nan are outside
the model; on them the source also ends in the bare except's format error.)
`lon, lat = map(float, s.split(","))` raises unless there are exactly two
numeric fields; an in-range pair is returned unchanged, an out-of-range pair
raises the range ValueError — still inside the same try block.
-/
def validate_coords_try (fields : List (Option ℚ)) : Except String (ℚ × ℚ) :=
  match fields with
  | [some lon, some lat] =>
      if -180 ≤ lon ∧ lon ≤ 180 ∧ -90 ≤ lat ∧ lat ≤ 90 then Except.ok (lon, lat)
      else Except.error rangeMsg
  | _ => Except.error parseFailureMsg

/--
validate_coords: the try body wrapped in the bare `except:` clause, which
catches every exception raised inside the try — including the range
ValueError the body itself raises — and raises the format ValueError instead.
-/
def validate_coords (fields : List (Option ℚ)) : Except String (ℚ × ℚ) :=
  match validate_coords_try fields with
  | Except.ok v => Except.ok v
  | Except.error _ => Except.error formatMsg

/- fetch_url and the retrying decorator. -/

/--
One call of the body of fetch_url: `attempt` is the outcome of the underlying
`requests.get` plus `raise_for_status` plus `.json()` (an error covers
timeout, connection failure, non-2xx status, or an undecodable body); the
body re-raises any such failure as the generic Exception
`API 请求失败：...`, and returns the parsed payload on success.
-/
def fetch_url_once {α : Type} (attempt : Except String α) : Except String α :=
  match attempt with
  | Except.ok j => Except.ok j
  | Except.error e => Except.error ("API 请求失败：" ++ e)

/--
The retrying decorator with stop_max_attempt_number=3: it re-runs fetch_url
on any exception until a success or until three attempts are spent, then lets
the last exception propagate.  `attempts i` is the transport outcome of the
i-th HTTP GET; the result carries how many attempts were made.  The fixed
2000 ms wait between attempts is wall-clock behaviour with no effect on the
returned value and is not modelled.
-/
def retryCall {α : Type} (attempts : ℕ → Except String α) (i : ℕ) : ℕ → Except String (α × ℕ)
  | 0 => Except.error ""
  | 1 => (fetch_url_once (attempts i)).map (fun a => (a, i + 1))
  | n + 2 =>
      match fetch_url_once (attempts i) with
      | Except.ok a => Except.ok (a, i + 1)
      | Except.error _ => retryCall attempts (i + 1) (n + 1)

/-- fetch_url as decorated: up to three attempts, starting at attempt 0.
(When the retrying module is absent the decorator is the identity and only
attempt 0 runs; the spec and claims address the decorated form.) -/
def fetch_url_retried {α : Type} (attempts : ℕ → Except String α) : Except String (α × ℕ) :=
  retryCall attempts 0 3

/- The OSRM route phase. -/

/--
The part of the OSRM JSON payload the program reads: the top-level "code"
field (`data.get("code")`; a missing field is modelled as a string other than
"Ok", which the comparison treats identically), and the first route's
distance in meters and duration in seconds.  The geometry array is consumed
only by the external map rendering and is not modelled.
-/
structure OsrmResponse where
  code : String
  distance : ℚ
  duration : ℚ

/-- Error shown (before st.stop) when the OSRM payload's code is not "Ok". -/
def unroutableMsg : String := "无法生成路线，请检查坐标或网络连接。"

/-- Outcome of the first (route) phase of the button handler: each halt
constructor records the st.error message shown before st.stop. -/
inductive RouteOutcome where
  | inputError (msg : String)
  | routeError (msg : String)
  | unroutable (msg : String)
  | success (distanceKm durationMin : ℚ)

/--
The route phase of the button handler: validate both coordinates (a
ValueError is caught by `except ValueError` and shown as 输入错误), fetch the
OSRM payload through the retry decorator (an exhausted retry's Exception is
caught by `except Exception` and shown as 路线生成失败), reject a payload
whose code is not "Ok" (st.error 无法生成路线 followed by st.stop), and
otherwise convert distance to kilometers and duration to minutes.  Map
construction and the temp-file round trip that follow extraction are
external rendering and are not modelled.
-/
def routePhase (startFields endFields : List (Option ℚ))
    (attempts : ℕ → Except String OsrmResponse) : RouteOutcome :=
  match validate_coords startFields with
  | Except.error e => RouteOutcome.inputError ("输入错误：" ++ e)
  | Except.ok _ =>
    match validate_coords endFields with
    | Except.error e => RouteOutcome.inputError ("输入错误：" ++ e)
    | Except.ok _ =>
      match fetch_url_retried attempts with
      | Except.error e => RouteOutcome.routeError ("路线生成失败：" ++ e)
      | Except.ok (r, _) =>
        if r.code = "Ok" then RouteOutcome.success (r.distance / 1000) (r.duration / 60)
        else RouteOutcome.unroutable unroutableMsg

/- The weather phase: three decision branches and the fallback. -/

/-- Suggestion texts, verbatim from the source. -/
def rainMsg : String := "雨雪天气，建议推迟出行或选择公共交通。"

def suitableMsg : String := "天气适合出行。"

def hotMsg : String := "高温，穿轻薄衣物，携带防晒用品。"

def coldMsg : String := "低温，穿厚实保暖衣物。"

def mildMsg : String := "温度适宜，穿日常衣物。"

def congestedMsg : String := "高峰时段或长距离，建议非高峰时段（如10:00-16:00）出行。"

def favorableMsg : String := "交通状况良好，适合出行。"

/-- The single suggestion assigned by the except handler of the weather
phase when anything in its try block raises. -/
def fallbackMsg : String := "天气数据不可用，无法生成智能建议。"

/-- The weather_desc dictionary lookup with default "未知". -/
def weatherDesc (code : ℤ) : String :=
  if code = 0 then "晴" else if code = 1 then "少云" else if code = 2 then "多云"
  else if code = 3 then "阴" else if code = 51 then "小雨" else if code = 61 then "中雨"
  else if code = 63 then "大雨" else if code = 71 then "小雪" else if code = 73 then "中雪"
  else if code = 75 then "大雪" else "未知"

/-- Decision branch 1: precipitation (weather_code >= 51). -/
def precipSuggestion (code : ℤ) : String :=
  if code ≥ 51 then rainMsg else suitableMsg

/-- Decision branch 2: temperature band (> 30 hot, < 5 cold, else mild). -/
def tempSuggestion (t : ℚ) : String :=
  if t > 30 then hotMsg else if t < 5 then coldMsg else mildMsg

/-- The peak-hour list [7, 8, 9, 17, 18, 19]. -/
def peakHours : List ℕ := [7, 8, 9, 17, 18, 19]

/-- Decision branch 3: congestion (peak hour or distance > 10 km). -/
def congestionSuggestion (hour : ℕ) (distanceKm : ℚ) : String :=
  if hour ∈ peakHours ∨ distanceKm > 10 then congestedMsg else favorableMsg

/-- Outcome of the weather fetch and current_weather field extraction:
transport failure (or missing fields) versus the integer weathercode and the
temperature in °C. -/
inductive WeatherFetch where
  | fail
  | ok (code : ℤ) (temperature : ℚ)

/-- A designated point of the weather try block at which a runtime exception
is injected, modelling any call raising after that point (e.g. a Streamlit
display call); noFail is the normal run.  All three appends lie inside the
same try block, so an exception after any of them reaches the same handler. -/
inductive FailPoint where
  | afterFetch
  | afterRule1
  | afterRule2
  | afterRule3
  | noFail
deriving DecidableEq

/--
The try block of the weather phase, threading the Python variable
`suggestions` (initialised to [] just before the try): returns the value the
variable holds when control leaves the block, and whether the block ran to
completion (false = an exception reached the except handler).
-/
def weatherTryBody (w : WeatherFetch) (fp : FailPoint) (hour : ℕ) (distanceKm : ℚ) :
    List String × Bool :=
  match w with
  | WeatherFetch.fail => ([], false)
  | WeatherFetch.ok code temperature =>
    if fp = FailPoint.afterFetch then ([], false)
    else
      let s1 := [precipSuggestion code]
      if fp = FailPoint.afterRule1 then (s1, false)
      else
        let s2 := s1 ++ [tempSuggestion temperature]
        if fp = FailPoint.afterRule2 then (s2, false)
        else
          let s3 := s2 ++ [congestionSuggestion hour distanceKm]
          if fp = FailPoint.afterRule3 then (s3, false) else (s3, true)

/-- The value of `suggestions` after the try/except: the fully built list
on completion, or the single fallback entry the handler assigns (discarding
whatever the variable held) when an exception was caught. -/
def suggestionsAfter (w : WeatherFetch) (fp : FailPoint) (hour : ℕ) (distanceKm : ℚ) :
    List String :=
  let r := weatherTryBody w fp hour distanceKm
  if r.2 then r.1 else [fallbackMsg]

/- Report formatting. -/

/-- Round a rational to the nearest integer, ties to even — the rounding of
Python's fixed-point format applied to an exactly-representable value. -/
def roundHalfEven (q : ℚ) : ℤ :=
  if q - ⌊q⌋ < 1 / 2 then ⌊q⌋
  else if 1 / 2 < q - ⌊q⌋ then ⌊q⌋ + 1
  else if ⌊q⌋ % 2 = 0 then ⌊q⌋ else ⌊q⌋ + 1

/-- Left-pad a digit string with zeros to width d. -/
def padZeros (s : String) (d : ℕ) : String :=
  if s.length ≥ d then s else String.mk (List.replicate (d - s.length) '0') ++ s

/-- Python f-string fixed-point formatting `.df` (d ≥ 1) of a value modelled
as an exact rational. -/
def formatFixed (q : ℚ) (d : ℕ) : String :=
  (if roundHalfEven (q * (10 : ℚ) ^ d) < 0 then "-" else "")
    ++ toString ((roundHalfEven (q * (10 : ℚ) ^ d)).natAbs / 10 ^ d)
    ++ "." ++ padZeros (toString ((roundHalfEven (q * (10 : ℚ) ^ d)).natAbs % 10 ^ d)) d

/-- Title line of the report. -/
def reportTitle : String := "智能交通管理系统 - 《人工智能通识基础》课程设计"

/-- `"\n".join(f"- {s}" for s in suggestions)`. -/
def joinSuggestions : List String → String
  | [] => ""
  | [s] => "- " ++ s
  | s :: rest => "- " ++ s ++ "\n" ++ joinSuggestions rest

/-- The weather line of the report.  Python renders the temperature with
str(); that textual rendering is abstracted as toString of the rational
(never inspected by any claim). -/
def weatherLineOf (code : ℤ) (temperature : ℚ) : String :=
  "天气：" ++ weatherDesc code ++ "，温度：" ++ toString temperature ++ "°C\n\n"

/--
The downloadable report, assembled exactly as in the source: title,
raw start/end input strings, mode, distance with two decimals plus 公里,
duration with one decimal plus 分钟, then — only when len(suggestions) > 1,
i.e. when the weather phase completed — the weather line, and finally the
hyphen-prefixed suggestion lines.
-/
def reportText (startRaw endRaw mode : String) (distanceKm durationMin : ℚ)
    (weatherLine : String) (suggestions : List String) : String :=
  reportTitle ++ "\n\n"
  ++ "起点：" ++ startRaw ++ "\n终点：" ++ endRaw ++ "\n出行方式：" ++ mode ++ "\n"
  ++ "距离：" ++ formatFixed distanceKm 2 ++ " 公里\n耗时：" ++ formatFixed durationMin 1 ++ " 分钟\n"
  ++ (if suggestions.length > 1 then weatherLine else "")
  ++ "智能建议（决策分支）：\n" ++ joinSuggestions suggestions

/-- The st.success banner shown right after the route phase. -/
def routeBanner (distanceKm durationMin : ℚ) : String :=
  "推荐路线：距离 " ++ formatFixed distanceKm 2 ++ " 公里，预计耗时 "
    ++ formatFixed durationMin 1 ++ " 分钟"

/- The whole button handler. -/

/-- Result of one button-handler run: halted (st.stop after an error) with
the message shown, or completed with the banner, the converted distance and
duration, the advisory list, and the downloadable report. -/
inductive WorkflowResult where
  | halted (msg : String)
  | done (banner : String) (distanceKm durationMin : ℚ)
      (suggestions : List String) (report : String)

/--
The button handler end to end: the route phase, then the weather/advisory
phase (whose failures never halt: the except handler substitutes the fallback
list), then report assembly.  `startRaw`/`endRaw` are the raw text-box
contents, `startFields`/`endFields` their comma-split parses, `hour` the
value of datetime.now().hour at branch 3.  When the try block failed before
the fetch completed, the Python name weather_desc is unbound; the report's
length guard keeps it unread, mirrored here by the weather line argument
being used only when the suggestion list has more than one entry.
-/
def workflow (startRaw endRaw : String) (startFields endFields : List (Option ℚ))
    (mode : String) (attempts : ℕ → Except String OsrmResponse)
    (w : WeatherFetch) (fp : FailPoint) (hour : ℕ) : WorkflowResult :=
  match routePhase startFields endFields attempts with
  | RouteOutcome.inputError m => WorkflowResult.halted m
  | RouteOutcome.routeError m => WorkflowResult.halted m
  | RouteOutcome.unroutable m => WorkflowResult.halted m
  | RouteOutcome.success dKm dMin =>
    let suggestions := suggestionsAfter w fp hour dKm
    let wline :=
      match w with
      | WeatherFetch.ok c t => weatherLineOf c t
      | WeatherFetch.fail => ""
    WorkflowResult.done (routeBanner dKm dMin) dKm dMin suggestions
      (reportText startRaw endRaw mode dKm dMin wline suggestions)

/-- The advisory list of a completed run, none for a halted one. -/
def advisoryOf : WorkflowResult → Option (List String)
  | WorkflowResult.halted _ => none
  | WorkflowResult.done _ _ _ s _ => some s

/-! Helper lemmas shared by the claim theorems. -/

/-- Rounding an integral rational returns that integer. -/
theorem roundHalfEven_intCast (n : ℤ) : roundHalfEven ((n : ℚ)) = n := by
  unfold roundHalfEven
  rw [Int.floor_intCast, sub_self, if_pos (by norm_num : (0 : ℚ) < 1 / 2)]

/-- Evaluate formatFixed once the scaled value is known to be an integer. -/
theorem formatFixed_eq (q : ℚ) (d : ℕ) (n : ℤ) (h : q * (10 : ℚ) ^ d = (n : ℚ)) :
    formatFixed q d = (if n < 0 then "-" else "")
      ++ toString (n.natAbs / 10 ^ d) ++ "." ++ padZeros (toString (n.natAbs % 10 ^ d)) d := by
  unfold formatFixed
  rw [h, roundHalfEven_intCast]

theorem formatFixed_1200m : formatFixed ((1200 : ℚ) / 1000) 2 = "1.20" := by
  rw [formatFixed_eq ((1200 : ℚ) / 1000) 2 120 (by norm_num)]
  rfl

theorem formatFixed_300s : formatFixed ((300 : ℚ) / 60) 1 = "5.0" := by
  rw [formatFixed_eq ((300 : ℚ) / 60) 1 50 (by norm_num)]
  rfl

/-- A valid numeric pair passes validate_coords unchanged. -/
theorem validate_coords_ok (lon lat : ℚ) (h1 : -180 ≤ lon) (h2 : lon ≤ 180)
    (h3 : -90 ≤ lat) (h4 : lat ≤ 90) :
    validate_coords [some lon, some lat] = Except.ok (lon, lat) := by
  simp only [validate_coords, validate_coords_try, if_pos (⟨h1, h2, h3, h4⟩ :
    -180 ≤ lon ∧ lon ≤ 180 ∧ -90 ≤ lat ∧ lat ≤ 90)]

/-- A first-attempt success is returned at once: the retry loop never looks
at the payload's application-level content. -/
theorem fetch_url_first_success {α : Type} (a : ℕ → Except String α) (r : α)
    (h : a 0 = Except.ok r) : fetch_url_retried a = Except.ok (r, 1) := by
  show retryCall a 0 3 = _
  rw [show (3 : ℕ) = 1 + 2 from rfl]
  simp only [retryCall, fetch_url_once, h]

/-- A transport failure is retried: a failing first attempt followed by a
successful second one yields that second payload after two attempts. -/
theorem fetch_url_retry_once {α : Type} (a : ℕ → Except String α) (e : String) (r : α)
    (h0 : a 0 = Except.error e) (h1 : a 1 = Except.ok r) :
    fetch_url_retried a = Except.ok (r, 2) := by
  show retryCall a 0 3 = _
  rw [show (3 : ℕ) = 1 + 2 from rfl]
  simp only [retryCall, fetch_url_once, h0]
  rw [show (0 : ℕ) + 1 = 1 from rfl, show (1 : ℕ) + 1 = 0 + 2 from rfl]
  simp only [retryCall, fetch_url_once, h1]

/-- Three failing attempts exhaust the retry budget and surface the last
wrapped exception. -/
theorem fetch_url_exhausted {α : Type} (a : ℕ → Except String α) (e0 e1 e2 : String)
    (h0 : a 0 = Except.error e0) (h1 : a 1 = Except.error e1) (h2 : a 2 = Except.error e2) :
    fetch_url_retried a = Except.error ("API 请求失败：" ++ e2) := by
  show retryCall a 0 3 = _
  rw [show (3 : ℕ) = 1 + 2 from rfl]
  simp only [retryCall, fetch_url_once, h0]
  rw [show (0 : ℕ) + 1 = 1 from rfl, show (1 : ℕ) + 1 = 0 + 2 from rfl]
  simp only [retryCall, fetch_url_once, h1]
  simp only [h2, Except.map]

/-- Reduction of routePhase when both inputs validate and the fetch returns a
payload with code "Ok". -/
theorem routePhase_success (sf ef : List (Option ℚ)) (p q : ℚ × ℚ)
    (attempts : ℕ → Except String OsrmResponse) (r : OsrmResponse) (n : ℕ)
    (hs : validate_coords sf = Except.ok p) (he : validate_coords ef = Except.ok q)
    (hf : fetch_url_retried attempts = Except.ok (r, n)) (hc : r.code = "Ok") :
    routePhase sf ef attempts = RouteOutcome.success (r.distance / 1000) (r.duration / 60) := by
  unfold routePhase
  rw [hs, he, hf]
  simp [hc]

/-- Reduction of routePhase when the payload's code is not "Ok". -/
theorem routePhase_unroutable (sf ef : List (Option ℚ)) (p q : ℚ × ℚ)
    (attempts : ℕ → Except String OsrmResponse) (r : OsrmResponse) (n : ℕ)
    (hs : validate_coords sf = Except.ok p) (he : validate_coords ef = Except.ok q)
    (hf : fetch_url_retried attempts = Except.ok (r, n)) (hc : r.code ≠ "Ok") :
    routePhase sf ef attempts = RouteOutcome.unroutable unroutableMsg := by
  unfold routePhase
  rw [hs, he, hf]
  simp [hc]

/-- The completed run produced by workflow under the same hypotheses. -/
theorem workflow_success (startRaw endRaw : String) (sf ef : List (Option ℚ))
    (mode : String) (p q : ℚ × ℚ) (attempts : ℕ → Except String OsrmResponse)
    (r : OsrmResponse) (n : ℕ) (w : WeatherFetch) (fp : FailPoint) (hour : ℕ)
    (hs : validate_coords sf = Except.ok p) (he : validate_coords ef = Except.ok q)
    (hf : fetch_url_retried attempts = Except.ok (r, n)) (hc : r.code = "Ok") :
    workflow startRaw endRaw sf ef mode attempts w fp hour =
      WorkflowResult.done (routeBanner (r.distance / 1000) (r.duration / 60))
        (r.distance / 1000) (r.duration / 60)
        (suggestionsAfter w fp hour (r.distance / 1000))
        (reportText startRaw endRaw mode (r.distance / 1000) (r.duration / 60)
          (match w with
           | WeatherFetch.ok c t => weatherLineOf c t
           | WeatherFetch.fail => "")
          (suggestionsAfter w fp hour (r.distance / 1000))) := by
  unfold workflow
  rw [routePhase_success sf ef p q attempts r n hs he hf hc]

/-- The normal weather run appends the three rule messages in order. -/
theorem suggestionsAfter_noFail (c : ℤ) (t : ℚ) (hour : ℕ) (d : ℚ) :
    suggestionsAfter (WeatherFetch.ok c t) FailPoint.noFail hour d
      = [precipSuggestion c, tempSuggestion t, congestionSuggestion hour d] := by
  simp [suggestionsAfter, weatherTryBody]

/-- Any failed weather run ends with exactly the fallback list. -/
theorem suggestionsAfter_fallback (w : WeatherFetch) (fp : FailPoint) (hour : ℕ) (d : ℚ)
    (h : w = WeatherFetch.fail ∨ fp ≠ FailPoint.noFail) :
    suggestionsAfter w fp hour d = [fallbackMsg] := by
  cases w with
  | fail => simp [suggestionsAfter, weatherTryBody]
  | ok c t =>
    have hfp : fp ≠ FailPoint.noFail := by
      cases h with
      | inl h => cases h
      | inr h => exact h
    cases fp <;> simp_all [suggestionsAfter, weatherTryBody]

/-! Claim theorems. -/

/--
C1: the claim says validate_coords reports a format error for a malformed
input and a distinct range error for a numeric pair out of range.  The code
raises the range ValueError inside the very try block whose bare except
clause catches everything and re-raises the format ValueError, so an
out-of-range pair surfaces with the format message: the two failure kinds
are not distinguishable by the caller.  Longitude 200 with latitude 50
exhibits the divergence between the raised (inner) error and the observed
one.
-/
theorem C1_range_error_masked_by_format :
    validate_coords_try [some 200, some 50] = Except.error rangeMsg
    ∧ validate_coords [some 200, some 50] = Except.error formatMsg
    ∧ formatMsg ≠ rangeMsg := by
  have h : ¬(-180 ≤ (200 : ℚ) ∧ (200 : ℚ) ≤ 180 ∧ -90 ≤ (50 : ℚ) ∧ (50 : ℚ) ≤ 90) := by
    norm_num
  refine ⟨?_, ?_, by decide⟩
  · simp only [validate_coords_try, if_neg h]
  · simp only [validate_coords, validate_coords_try, if_neg h]

/--
C2: the temperature branch yields the light-clothing message for t > 30, the
warm-clothing message for t < 5, and the neutral message on the whole closed
band [5, 30]; in particular both boundary values 5 and 30 yield the neutral
message, which differs from the hot and cold ones.
-/
theorem C2_temperature_bands (t : ℚ) :
    (t > 30 → tempSuggestion t = hotMsg)
    ∧ (t < 5 → tempSuggestion t = coldMsg)
    ∧ (5 ≤ t → t ≤ 30 → tempSuggestion t = mildMsg)
    ∧ tempSuggestion 5 = mildMsg
    ∧ tempSuggestion 30 = mildMsg
    ∧ mildMsg ≠ hotMsg ∧ mildMsg ≠ coldMsg := by
  refine ⟨?_, ?_, ?_, ?_, ?_, by decide, by decide⟩
  · intro h
    unfold tempSuggestion
    rw [if_pos h]
  · intro h
    unfold tempSuggestion
    rw [if_neg (by linarith), if_pos h]
  · intro h1 h2
    unfold tempSuggestion
    rw [if_neg (by linarith), if_neg (by linarith)]
  · unfold tempSuggestion
    rw [if_neg (by norm_num), if_neg (by norm_num)]
  · unfold tempSuggestion
    rw [if_neg (by norm_num), if_neg (by norm_num)]

/-- C2 witness: both strict bands and the inclusive boundary evaluated. -/
theorem C2_temperature_bands_witness :
    tempSuggestion 31 = hotMsg ∧ tempSuggestion 4 = coldMsg
    ∧ tempSuggestion 5 = mildMsg ∧ tempSuggestion 30 = mildMsg :=
  ⟨(C2_temperature_bands 31).1 (by norm_num),
   (C2_temperature_bands 4).2.1 (by norm_num),
   (C2_temperature_bands 5).2.2.1 (by norm_num) (by norm_num),
   (C2_temperature_bands 30).2.2.1 (by norm_num) (by norm_num)⟩

/--
C4: the congestion branch warns exactly when the current hour lies in
[7, 8, 9, 17, 18, 19] or the distance exceeds 10 km — each condition alone
suffices — and yields the favorable message when neither holds.
-/
theorem C4_congestion_rule (hour : ℕ) (d : ℚ) :
    (hour ∈ peakHours → congestionSuggestion hour d = congestedMsg)
    ∧ (d > 10 → congestionSuggestion hour d = congestedMsg)
    ∧ (hour ∉ peakHours → d ≤ 10 → congestionSuggestion hour d = favorableMsg)
    ∧ congestedMsg ≠ favorableMsg := by
  refine ⟨?_, ?_, ?_, by decide⟩
  · intro h
    unfold congestionSuggestion
    rw [if_pos (Or.inl h)]
  · intro h
    unfold congestionSuggestion
    rw [if_pos (Or.inr h)]
  · intro h1 h2
    unfold congestionSuggestion
    rw [if_neg ?_]
    rintro (h | h)
    · exact h1 h
    · linarith

/-- C4 witness: peak hour alone, long distance alone, and neither. -/
theorem C4_congestion_rule_witness :
    congestionSuggestion 8 5 = congestedMsg
    ∧ congestionSuggestion 10 15 = congestedMsg
    ∧ congestionSuggestion 10 5 = favorableMsg :=
  ⟨(C4_congestion_rule 8 5).1 (by decide),
   (C4_congestion_rule 10 15).2.1 (by norm_num),
   (C4_congestion_rule 10 5).2.2.1 (by decide) (by norm_num)⟩

/--
C5: the precipitation branch warns exactly for weather codes ≥ 51 and yields
the suitable-for-travel message for every code ≤ 50.
-/
theorem C5_precipitation_threshold (code : ℤ) :
    (code ≥ 51 ↔ precipSuggestion code = rainMsg)
    ∧ (code ≤ 50 → precipSuggestion code = suitableMsg)
    ∧ rainMsg ≠ suitableMsg := by
  refine ⟨⟨?_, ?_⟩, ?_, by decide⟩
  · intro h
    unfold precipSuggestion
    rw [if_pos h]
  · intro h
    by_contra hlt
    have : precipSuggestion code = suitableMsg := by
      unfold precipSuggestion
      rw [if_neg hlt]
    rw [this] at h
    exact absurd h (by decide)
  · intro h
    unfold precipSuggestion
    rw [if_neg (by omega)]

/-- C5 witness: the threshold code 51 warns and code 50 does not. -/
theorem C5_precipitation_threshold_witness :
    precipSuggestion 51 = rainMsg ∧ precipSuggestion 50 = suitableMsg :=
  ⟨(C5_precipitation_threshold 51).1.mp (by norm_num),
   (C5_precipitation_threshold 50).2.1 (by norm_num)⟩

/--
C3: when the weather fetch fails — or any later part of the advisory try
block raises — no exception escapes: the run still completes, presenting the
route banner, the converted distance and duration, and a report, with the
advisory equal to the single fallback entry and no weather line.
-/
theorem C3_weather_failure_nonfatal
    (startRaw endRaw : String) (sf ef : List (Option ℚ)) (mode : String)
    (p q : ℚ × ℚ) (attempts : ℕ → Except String OsrmResponse) (r : OsrmResponse) (n : ℕ)
    (w : WeatherFetch) (fp : FailPoint) (hour : ℕ)
    (hs : validate_coords sf = Except.ok p) (he : validate_coords ef = Except.ok q)
    (hf : fetch_url_retried attempts = Except.ok (r, n)) (hc : r.code = "Ok")
    (hw : w = WeatherFetch.fail ∨ fp ≠ FailPoint.noFail) :
    workflow startRaw endRaw sf ef mode attempts w fp hour =
      WorkflowResult.done (routeBanner (r.distance / 1000) (r.duration / 60))
        (r.distance / 1000) (r.duration / 60) [fallbackMsg]
        (reportText startRaw endRaw mode (r.distance / 1000) (r.duration / 60) ""
          [fallbackMsg]) := by
  rw [workflow_success startRaw endRaw sf ef mode p q attempts r n w fp hour hs he hf hc,
      suggestionsAfter_fallback w fp hour (r.distance / 1000) hw]
  congr 1

/-- C3 witness: a transport failure of the weather call on an otherwise
successful run. -/
theorem C3_weather_failure_nonfatal_witness :
    workflow "116.39139,39.9075" "116.3975,39.9087" [some 0, some 0] [some 1, some 1]
      "driving" (fun _ => Except.ok ⟨"Ok", 1200, 300⟩)
      WeatherFetch.fail FailPoint.noFail 10 =
    WorkflowResult.done
      (routeBanner ((1200 : ℚ) / 1000) ((300 : ℚ) / 60))
      ((1200 : ℚ) / 1000) ((300 : ℚ) / 60) [fallbackMsg]
      (reportText "116.39139,39.9075" "116.3975,39.9087" "driving"
        ((1200 : ℚ) / 1000) ((300 : ℚ) / 60) "" [fallbackMsg]) :=
  C3_weather_failure_nonfatal "116.39139,39.9075" "116.3975,39.9087"
    [some 0, some 0] [some 1, some 1] "driving" (0, 0) (1, 1)
    (fun _ => Except.ok ⟨"Ok", 1200, 300⟩) ⟨"Ok", 1200, 300⟩ 1
    WeatherFetch.fail FailPoint.noFail 10
    (validate_coords_ok 0 0 (by norm_num) (by norm_num) (by norm_num) (by norm_num))
    (validate_coords_ok 1 1 (by norm_num) (by norm_num) (by norm_num) (by norm_num))
    (fetch_url_first_success _ _ rfl) rfl (Or.inl rfl)

/--
C6: in every run the advisory list has length exactly 3 — the records of the
precipitation, temperature and congestion rules in that fixed order — when
the whole weather phase completes, and is exactly the single fallback record
otherwise; no run leaves a list of 2 records even when an exception occurs
after two rules have already appended theirs.
-/
theorem C6_advisory_all_or_nothing (w : WeatherFetch) (fp : FailPoint) (hour : ℕ) (d : ℚ) :
    ((suggestionsAfter w fp hour d).length = 3
      ∨ suggestionsAfter w fp hour d = [fallbackMsg])
    ∧ (∀ c t, w = WeatherFetch.ok c t → fp = FailPoint.noFail →
        suggestionsAfter w fp hour d
          = [precipSuggestion c, tempSuggestion t, congestionSuggestion hour d])
    ∧ (w = WeatherFetch.fail ∨ fp ≠ FailPoint.noFail →
        suggestionsAfter w fp hour d = [fallbackMsg])
    ∧ (suggestionsAfter w fp hour d).length ≠ 2 := by
  have hmain : suggestionsAfter w fp hour d = [fallbackMsg]
      ∨ ∃ c t, w = WeatherFetch.ok c t ∧ fp = FailPoint.noFail := by
    cases w with
    | fail => exact Or.inl (suggestionsAfter_fallback _ _ _ _ (Or.inl rfl))
    | ok c t =>
      by_cases hfp : fp = FailPoint.noFail
      · exact Or.inr ⟨c, t, rfl, hfp⟩
      · exact Or.inl (suggestionsAfter_fallback _ _ _ _ (Or.inr hfp))
  refine ⟨?_, ?_, suggestionsAfter_fallback w fp hour d, ?_⟩
  · rcases hmain with h | ⟨c, t, hw, hfp⟩
    · exact Or.inr h
    · subst hw; subst hfp
      rw [suggestionsAfter_noFail c t hour d]
      exact Or.inl rfl
  · intro c t hw hfp
    subst hw; subst hfp
    exact suggestionsAfter_noFail c t hour d
  · rcases hmain with h | ⟨c, t, hw, hfp⟩
    · rw [h]; decide
    · subst hw; subst hfp
      rw [suggestionsAfter_noFail c t hour d]
      simp

/-- C6 witness: an exception injected after two rules have appended still
yields the single fallback record, never a two-entry list. -/
theorem C6_advisory_all_or_nothing_witness :
    suggestionsAfter (WeatherFetch.ok 0 20) FailPoint.afterRule2 8 5 = [fallbackMsg]
    ∧ (suggestionsAfter (WeatherFetch.ok 0 20) FailPoint.afterRule2 8 5).length ≠ 2 :=
  ⟨(C6_advisory_all_or_nothing (WeatherFetch.ok 0 20) FailPoint.afterRule2 8 5).2.2.1
      (Or.inr (by decide)),
   (C6_advisory_all_or_nothing (WeatherFetch.ok 0 20) FailPoint.afterRule2 8 5).2.2.2⟩

/--
C9: every in-range numeric pair passes validation unchanged, and two
validations of the same input yield equal coordinate values.
-/
theorem C9_validate_roundtrip (lon lat : ℚ) (h1 : -180 ≤ lon) (h2 : lon ≤ 180)
    (h3 : -90 ≤ lat) (h4 : lat ≤ 90) :
    validate_coords [some lon, some lat] = Except.ok (lon, lat)
    ∧ (∀ p q : ℚ × ℚ, validate_coords [some lon, some lat] = Except.ok p →
        validate_coords [some lon, some lat] = Except.ok q → p = q) := by
  refine ⟨validate_coords_ok lon lat h1 h2 h3 h4, ?_⟩
  intro p q hp hq
  rw [hp] at hq
  exact Except.ok.inj hq

/-- C9 witness: the default origin input of the page. -/
theorem C9_validate_roundtrip_witness :
    validate_coords [some (11639139 / 100000 : ℚ), some (399075 / 10000 : ℚ)]
      = Except.ok (11639139 / 100000, 399075 / 10000) :=
  (C9_validate_roundtrip (11639139 / 100000) (399075 / 10000)
    (by norm_num) (by norm_num) (by norm_num) (by norm_num)).1

/-- Associativity of string concatenation (via the underlying char lists). -/
theorem string_append_assoc (a b c : String) : a ++ b ++ c = a ++ (b ++ c) := by
  rcases a with ⟨a⟩
  rcases b with ⟨b⟩
  rcases c with ⟨c⟩
  show String.mk ((a ++ b) ++ c) = String.mk (a ++ (b ++ c))
  rw [List.append_assoc]

/--
C7: a syntactically valid OSRM payload whose code is not "Ok" is returned by
the very first fetch attempt (the retry loop never inspects application-level
content), halts the whole run with the dedicated unroutable error before any
report is produced, and that outcome is a different constructor from a
transport-level failure; transport failures, by contrast, do go through the
retry path — a failing attempt is retried, and three failures exhaust the
budget and surface the wrapped transport exception.
-/
theorem C7_unroutable_halts_without_retry
    (sf ef : List (Option ℚ)) (p q : ℚ × ℚ)
    (attempts : ℕ → Except String OsrmResponse) (r : OsrmResponse)
    (hs : validate_coords sf = Except.ok p) (he : validate_coords ef = Except.ok q)
    (h0 : attempts 0 = Except.ok r) (hr : r.code ≠ "Ok") :
    fetch_url_retried attempts = Except.ok (r, 1)
    ∧ routePhase sf ef attempts = RouteOutcome.unroutable unroutableMsg
    ∧ (∀ startRaw endRaw mode w fp hour,
        workflow startRaw endRaw sf ef mode attempts w fp hour
          = WorkflowResult.halted unroutableMsg)
    ∧ (∀ m, RouteOutcome.unroutable unroutableMsg ≠ RouteOutcome.routeError m)
    ∧ (∀ (a : ℕ → Except String OsrmResponse) (e : String) (r2 : OsrmResponse),
        a 0 = Except.error e → a 1 = Except.ok r2 →
        fetch_url_retried a = Except.ok (r2, 2))
    ∧ (∀ (a : ℕ → Except String OsrmResponse) (e0 e1 e2 : String),
        a 0 = Except.error e0 → a 1 = Except.error e1 → a 2 = Except.error e2 →
        fetch_url_retried a = Except.error ("API 请求失败：" ++ e2)) := by
  have hfetch := fetch_url_first_success attempts r h0
  refine ⟨hfetch, routePhase_unroutable sf ef p q attempts r 1 hs he hfetch hr,
    ?_, ?_, ?_, ?_⟩
  · intro startRaw endRaw mode w fp hour
    unfold workflow
    rw [routePhase_unroutable sf ef p q attempts r 1 hs he hfetch hr]
  · intro m h
    cases h
  · intro a e r2 ha0 ha1
    exact fetch_url_retry_once a e r2 ha0 ha1
  · intro a e0 e1 e2 ha0 ha1 ha2
    exact fetch_url_exhausted a e0 e1 e2 ha0 ha1 ha2

/-- C7 witness: a payload with code "NoRoute" on the first attempt. -/
theorem C7_unroutable_halts_without_retry_witness :
    fetch_url_retried (fun _ => Except.ok (⟨"NoRoute", 0, 0⟩ : OsrmResponse))
      = Except.ok (⟨"NoRoute", 0, 0⟩, 1)
    ∧ routePhase [some 0, some 0] [some 1, some 1]
        (fun _ => Except.ok (⟨"NoRoute", 0, 0⟩ : OsrmResponse))
      = RouteOutcome.unroutable unroutableMsg
    ∧ workflow "s" "e" [some 0, some 0] [some 1, some 1] "driving"
        (fun _ => Except.ok (⟨"NoRoute", 0, 0⟩ : OsrmResponse))
        WeatherFetch.fail FailPoint.noFail 10
      = WorkflowResult.halted unroutableMsg := by
  have h := C7_unroutable_halts_without_retry [some 0, some 0] [some 1, some 1]
    (0, 0) (1, 1) (fun _ => Except.ok (⟨"NoRoute", 0, 0⟩ : OsrmResponse))
    ⟨"NoRoute", 0, 0⟩
    (validate_coords_ok 0 0 (by norm_num) (by norm_num) (by norm_num) (by norm_num))
    (validate_coords_ok 1 1 (by norm_num) (by norm_num) (by norm_num) (by norm_num))
    rfl (by decide)
  exact ⟨h.1, h.2.1, h.2.2.1 "s" "e" "driving" WeatherFetch.fail FailPoint.noFail 10⟩

/--
C8: for a routing payload of 1200 meters and 300 seconds, the downloadable
report renders 1.20 公里 (two decimals) and 5.0 分钟 (one decimal), converted
from the provider's meters and seconds; the weather line enters the report
exactly when the suggestion list has more than one entry — i.e. only when the
weather phase succeeded — and a list of at most one entry makes the report
independent of the weather line.
-/
theorem C8_report_rendering (r : OsrmResponse) (attempts : ℕ → Except String OsrmResponse)
    (h0 : attempts 0 = Except.ok r) (hc : r.code = "Ok")
    (hd : r.distance = 1200) (hu : r.duration = 300) :
    formatFixed (r.distance / 1000) 2 = "1.20"
    ∧ formatFixed (r.duration / 60) 1 = "5.0"
    ∧ workflow "116.39139,39.9075" "116.3975,39.9087"
        [some (11639139 / 100000 : ℚ), some (399075 / 10000 : ℚ)]
        [some (1163975 / 10000 : ℚ), some (399087 / 10000 : ℚ)]
        "driving" attempts WeatherFetch.fail FailPoint.noFail 10
      = WorkflowResult.done "推荐路线：距离 1.20 公里，预计耗时 5.0 分钟"
          (r.distance / 1000) (r.duration / 60) [fallbackMsg]
          (reportTitle ++ "\n\n"
            ++ "起点：" ++ "116.39139,39.9075" ++ "\n终点：" ++ "116.3975,39.9087"
            ++ "\n出行方式：" ++ "driving" ++ "\n"
            ++ "距离：" ++ "1.20" ++ " 公里\n耗时：" ++ "5.0" ++ " 分钟\n"
            ++ "智能建议（决策分支）：\n" ++ ("- " ++ fallbackMsg))
    ∧ (∀ startRaw endRaw mode dK dM wline s, s.length ≤ 1 →
        reportText startRaw endRaw mode dK dM wline s
          = reportText startRaw endRaw mode dK dM "" s)
    ∧ (∀ startRaw endRaw mode dK dM wline s, 1 < s.length →
        ∃ pre post, reportText startRaw endRaw mode dK dM wline s
          = pre ++ (wline ++ post)) := by
  have hfetch := fetch_url_first_success attempts r h0
  have hw := workflow_success "116.39139,39.9075" "116.3975,39.9087"
    [some (11639139 / 100000 : ℚ), some (399075 / 10000 : ℚ)]
    [some (1163975 / 10000 : ℚ), some (399087 / 10000 : ℚ)]
    "driving" (11639139 / 100000, 399075 / 10000) (1163975 / 10000, 399087 / 10000)
    attempts r 1 WeatherFetch.fail FailPoint.noFail 10
    (validate_coords_ok (11639139 / 100000) (399075 / 10000)
      (by norm_num) (by norm_num) (by norm_num) (by norm_num))
    (validate_coords_ok (1163975 / 10000) (399087 / 10000)
      (by norm_num) (by norm_num) (by norm_num) (by norm_num))
    hfetch hc
  refine ⟨by rw [hd]; exact formatFixed_1200m, by rw [hu]; exact formatFixed_300s,
    ?_, ?_, ?_⟩
  · rw [hw, suggestionsAfter_fallback WeatherFetch.fail FailPoint.noFail 10
      (r.distance / 1000) (Or.inl rfl), hd, hu]
    congr 1
    · simp only [routeBanner, formatFixed_1200m, formatFixed_300s]
      decide
    · simp only [reportText, formatFixed_1200m, formatFixed_300s]
      decide
  · intro startRaw endRaw mode dK dM wline s h
    have hn : ¬ s.length > 1 := by omega
    simp only [reportText, if_neg hn]
  · intro startRaw endRaw mode dK dM wline s h
    refine ⟨reportTitle ++ "\n\n"
      ++ "起点：" ++ startRaw ++ "\n终点：" ++ endRaw ++ "\n出行方式：" ++ mode ++ "\n"
      ++ "距离：" ++ formatFixed dK 2 ++ " 公里\n耗时：" ++ formatFixed dM 1 ++ " 分钟\n",
      "智能建议（决策分支）：\n" ++ joinSuggestions s, ?_⟩
    simp only [reportText, if_pos h]
    simp only [string_append_assoc]

/-- C8 witness: the concrete 1200 m / 300 s payload. -/
theorem C8_report_rendering_witness :
    formatFixed (((⟨"Ok", 1200, 300⟩ : OsrmResponse)).distance / 1000) 2 = "1.20"
    ∧ formatFixed (((⟨"Ok", 1200, 300⟩ : OsrmResponse)).duration / 60) 1 = "5.0" :=
  have h := C8_report_rendering ⟨"Ok", 1200, 300⟩
    (fun _ => Except.ok (⟨"Ok", 1200, 300⟩ : OsrmResponse)) rfl rfl rfl rfl
  ⟨h.1, h.2.1⟩

/--
C10: the advisory is a pure function of the weather code, the temperature,
the current hour and the route distance: two completed runs that agree on
those four values — but may differ in raw input strings, travel mode,
endpoint coordinates, fetch schedule and route duration — produce identical
advisory lists, and the joined advisory section of the report is likewise
identical.
-/
theorem C10_advisory_deterministic
    (raw1s raw1e raw2s raw2e mode1 mode2 : String)
    (sf1 ef1 sf2 ef2 : List (Option ℚ)) (p1 q1 p2 q2 : ℚ × ℚ)
    (a1 a2 : ℕ → Except String OsrmResponse) (r1 r2 : OsrmResponse) (n1 n2 : ℕ)
    (c : ℤ) (t : ℚ) (hour : ℕ)
    (hs1 : validate_coords sf1 = Except.ok p1) (he1 : validate_coords ef1 = Except.ok q1)
    (hf1 : fetch_url_retried a1 = Except.ok (r1, n1)) (hc1 : r1.code = "Ok")
    (hs2 : validate_coords sf2 = Except.ok p2) (he2 : validate_coords ef2 = Except.ok q2)
    (hf2 : fetch_url_retried a2 = Except.ok (r2, n2)) (hc2 : r2.code = "Ok")
    (hdist : r1.distance = r2.distance) :
    advisoryOf (workflow raw1s raw1e sf1 ef1 mode1 a1
        (WeatherFetch.ok c t) FailPoint.noFail hour)
      = advisoryOf (workflow raw2s raw2e sf2 ef2 mode2 a2
        (WeatherFetch.ok c t) FailPoint.noFail hour)
    ∧ advisoryOf (workflow raw1s raw1e sf1 ef1 mode1 a1
        (WeatherFetch.ok c t) FailPoint.noFail hour)
      = some [precipSuggestion c, tempSuggestion t,
          congestionSuggestion hour (r1.distance / 1000)]
    ∧ joinSuggestions [precipSuggestion c, tempSuggestion t,
        congestionSuggestion hour (r1.distance / 1000)]
      = joinSuggestions [precipSuggestion c, tempSuggestion t,
        congestionSuggestion hour (r2.distance / 1000)] := by
  rw [workflow_success raw1s raw1e sf1 ef1 mode1 p1 q1 a1 r1 n1
        (WeatherFetch.ok c t) FailPoint.noFail hour hs1 he1 hf1 hc1,
      workflow_success raw2s raw2e sf2 ef2 mode2 p2 q2 a2 r2 n2
        (WeatherFetch.ok c t) FailPoint.noFail hour hs2 he2 hf2 hc2]
  simp [advisoryOf, suggestionsAfter_noFail, hdist]

/-- C10 witness: two runs differing in inputs, mode and duration but agreeing
on weather, hour and distance give the same advisory. -/
theorem C10_advisory_deterministic_witness :
    advisoryOf (workflow "a" "b" [some 0, some 0] [some 1, some 1] "driving"
        (fun _ => Except.ok (⟨"Ok", 1200, 300⟩ : OsrmResponse))
        (WeatherFetch.ok 0 20) FailPoint.noFail 10)
      = advisoryOf (workflow "x" "y" [some 2, some 2] [some 3, some 3] "walking"
        (fun _ => Except.ok (⟨"Ok", 1200, 999⟩ : OsrmResponse))
        (WeatherFetch.ok 0 20) FailPoint.noFail 10) :=
  (C10_advisory_deterministic "a" "b" "x" "y" "driving" "walking"
    [some 0, some 0] [some 1, some 1] [some 2, some 2] [some 3, some 3]
    (0, 0) (1, 1) (2, 2) (3, 3)
    (fun _ => Except.ok (⟨"Ok", 1200, 300⟩ : OsrmResponse))
    (fun _ => Except.ok (⟨"Ok", 1200, 999⟩ : OsrmResponse))
    ⟨"Ok", 1200, 300⟩ ⟨"Ok", 1200, 999⟩ 1 1 0 20 10
    (validate_coords_ok 0 0 (by norm_num) (by norm_num) (by norm_num) (by norm_num))
    (validate_coords_ok 1 1 (by norm_num) (by norm_num) (by norm_num) (by norm_num))
    (fetch_url_first_success _ _ rfl) rfl
    (validate_coords_ok 2 2 (by norm_num) (by norm_num) (by norm_num) (by norm_num))
    (validate_coords_ok 3 3 (by norm_num) (by norm_num) (by norm_num) (by norm_num))
    (fetch_url_first_success _ _ rfl) rfl rfl).1
